import Mathlib

/-!
Shallow embedding of `slurmpy`'s `Job` class (`src/slurmpy/_job.py`).

A `Job` gathers a name, a shebang line, a list of shell commands, an
insertion-ordered mapping of sbatch options, an insertion-ordered mapping
of dependency classes to lists of stored `(target, time)` tuples, and a
dependency separator.  Pure renderers turn the state into a script body, a
dependency expression and a full `sbatch` command; `submit` walks the
recorded dependencies and invokes the external client.

Python object identity (`is`, needed by the self-dependency check and the
resolution of a dependency's job id) is modelled by giving every `Job`
object an object id `oid : Nat`; distinct live objects carry distinct
oids.  The `_job_id` of *other* Job objects reachable through dependency
references is read through a heap `Nat → Option Nat` mapping an oid to
that object's current `_job_id`.
-/

/-- Python's `sep.join(items)`. -/
def pyJoin (sep : String) : List String → String
  | [] => ""
  | [x] => x
  | x :: y :: ys => x ++ sep ++ pyJoin sep (y :: ys)

/-- Python's `str.lower()`, character by character (the dependency-class
qualifiers handled here are ASCII). -/
def pyLower (s : String) : String := String.mk (s.data.map Char.toLower)

/-- A dependency target as stored by `add_dependency` after coercion:
either a reference to a `Job` object (by object id) or a literal job-id
string (ints are coerced to strings before storage). -/
inductive DepTarget where
  | jobRef (oid : Nat)
  | lit (s : String)
  deriving DecidableEq, Repr

/-- An element of a dependency list `self._deps[key]`.  The code only ever
appends `(target, time)` tuples, but `submit` tests each element with
`isinstance(dep, Job)`, so the element domain must distinguish a `Job`
instance from a tuple. -/
inductive DepListElem where
  | jobObj (oid : Nat)
  | tup (target : DepTarget) (time : Option String)
  deriving DecidableEq, Repr

/-- Python's `isinstance(dep, Job)` on a dependency-list element. -/
def DepListElem.isinstanceJob : DepListElem → Bool
  | .jobObj _ => true
  | .tup _ _ => false

/-- The `Job` state (`_job.py` lines 13–26).  `_args` and `_deps` are
insertion-ordered dicts, modelled as association lists. -/
structure Job where
  oid : Nat
  name : String
  shebang : String
  commands : List String
  _job_id : Option Nat
  _args : List (String × String)
  _deps : List (String × List DepListElem)
  _dep_sep : String
  deriving DecidableEq, Repr

/-- `d[k] = v` on an insertion-ordered dict: overwrite in place when the
key exists, else append at the end. -/
def dictSet (d : List (String × String)) (k v : String) : List (String × String) :=
  if d.any (fun p => p.1 == k) then
    d.map (fun p => if p.1 == k then (k, v) else p)
  else d ++ [(k, v)]

/-- `k in d` on a dict. -/
def dictContains (d : List (String × String)) (k : String) : Bool :=
  d.any (fun p => p.1 == k)

/-- `d.pop(k)` on a dict (guarded by `k in d` in the source). -/
def dictPop (d : List (String × String)) (k : String) : List (String × String) :=
  d.filter (fun p => p.1 ≠ k)

/-- `self._deps[key].append(v)` on the `defaultdict(list)`: append to the
key's list, creating the key at the end when absent. -/
def depsAppend (d : List (String × List DepListElem)) (k : String) (v : DepListElem) :
    List (String × List DepListElem) :=
  if d.any (fun p => p.1 == k) then
    d.map (fun p => if p.1 == k then (p.1, p.2 ++ [v]) else p)
  else d ++ [(k, [v])]

/-- `self._deps[key] = []`: plain assignment on the dict. -/
def depsSetEmpty (d : List (String × List DepListElem)) (k : String) :
    List (String × List DepListElem) :=
  if d.any (fun p => p.1 == k) then
    d.map (fun p => if p.1 == k then (p.1, ([] : List DepListElem)) else p)
  else d ++ [(k, [])]

/-- `Job._parse_argname` (lines 434–442): strip leading underscores; a name
longer than one character becomes `--name` with underscores turned into
hyphens; a single character becomes `-c`; an empty remainder becomes `""`. -/
def _parse_argname (arg : String) : String :=
  let arg := arg.dropWhile (· == '_')
  if arg.length > 1 then "--" ++ arg.replace "_" "-"
  else if arg.length == 1 then "-" ++ arg
  else ""

/-- A scalar element of a sequence value passed for an option. -/
inductive Scalar where
  | str (s : String)
  | int (n : Int)
  deriving DecidableEq, Repr

/-- Python's `str(x)` on a scalar. -/
def Scalar.pyStr : Scalar → String
  | .str s => s
  | .int n => toString n

/-- A value passed for an option: `None | int | str | Sequence[str | int]`. -/
inductive ArgValue where
  | str (s : String)
  | none
  | int (n : Int)
  | seq (xs : List Scalar)
  deriving DecidableEq, Repr

/-- `Job._parse_argvalues` (lines 444–452): a string is kept verbatim (the
`isinstance(value, str)` test comes first), `None` becomes `""`, any other
iterable is comma-joined element-wise after `str`, anything else is
stringified. -/
def _parse_argvalues : ArgValue → String
  | .str s => s
  | .none => ""
  | .seq xs => pyJoin "," (xs.map Scalar.pyStr)
  | .int n => toString n

/-- `Job._arg_to_str` (lines 454–463): a truthy value is appended after a
space for a two-character flag name, after `=` otherwise; a falsy value
leaves the bare flag. -/
def _arg_to_str (argname : String) (argvalue : String) : String :=
  if argvalue ≠ "" then
    argname ++ (if argname.length == 2 then " " else "=") ++ argvalue
  else argname

/-- `Job.__init__` (lines 27–91): records name, shebang and commands, sets
`_job_id = None`, `_deps = {}`, `_dep_sep = ","`, and folds the keyword
options through `_parse_argname` / `_parse_argvalues` into `_args`. -/
def mkJob (oid : Nat) (name : String) (shebang : String) (commands : List String)
    (kwargs : List (String × ArgValue)) : Job :=
  { oid := oid
    name := name
    shebang := shebang
    commands := commands
    _job_id := Option.none
    _deps := []
    _dep_sep := ","
    _args := kwargs.foldl
      (fun d kv => dictSet d (_parse_argname kv.1) (_parse_argvalues kv.2)) [] }

/-- The value a Python method call returns: the `self` instance or `None`
(a method body falling through without a `return` statement returns `None`). -/
inductive PyRet where
  | retSelf
  | retNone
  deriving DecidableEq, Repr

/-- The effect of one method call: the updated object state, the lines
printed, and the returned value. -/
structure MethodResult where
  state : Job
  prints : List String
  ret : PyRet
  deriving DecidableEq, Repr

/-- `Job.add_arguments` (lines 137–174). -/
def add_arguments (j : Job) (kwargs : List (String × ArgValue)) : MethodResult :=
  let args := kwargs.foldl
    (fun d kv => dictSet d (_parse_argname kv.1) (_parse_argvalues kv.2)) j._args
  { state := { j with _args := args }
    prints := []
    ret := .retSelf }

/-- `Job.remove_arguments` (lines 176–196). -/
def remove_arguments (j : Job) (keys : List String) : MethodResult :=
  let args := keys.foldl
    (fun d k =>
      let k := _parse_argname k
      if dictContains d k then dictPop d k else d) j._args
  { state := { j with _args := args }
    prints := []
    ret := .retSelf }

/-- `Job.add_account` (lines 198–215): overwrite `-A` or `--account` in
place when present, else add a fresh `account` option. -/
def add_account (j : Job) (account : String) : MethodResult :=
  if dictContains j._args "-A" then
    { state := { j with _args := dictSet j._args "-A" account }
      prints := [], ret := .retSelf }
  else if dictContains j._args "--account" then
    { state := { j with _args := dictSet j._args "--account" account }
      prints := [], ret := .retSelf }
  else add_arguments j [("account", ArgValue.str account)]

/-- The `dep` argument of `add_dependency`: `Job | str | int`. -/
inductive DepArg where
  | jobA (oid : Nat)
  | intA (n : Int)
  | strA (s : String)
  deriving DecidableEq, Repr

/-- The `time` argument of `add_dependency`: `Optional[int | str]`. -/
inductive TimeArg where
  | noneT
  | intT (n : Int)
  | strT (s : String)
  deriving DecidableEq, Repr

/-- The int-to-string coercion `if isinstance(time, int): time = str(time)`. -/
def coerceTime : TimeArg → Option String
  | .noneT => Option.none
  | .intT n => some (toString n)
  | .strT s => some s

/-- The int-to-string coercion `if isinstance(dep, int): dep = str(dep)`. -/
def coerceDep : DepArg → DepTarget
  | .jobA oid => .jobRef oid
  | .intA n => .lit (toString n)
  | .strA s => .lit s

/-- Python truthiness of the coerced `time` (`None` or a string). -/
def timeTruthy : Option String → Bool
  | Option.none => false
  | some s => s ≠ ""

/-- Python's `dep is self`: identity with the receiver, possible only for a
`Job`-typed argument carrying the receiver's object id. -/
def depIsSelf (j : Job) (dep : DepArg) : Bool :=
  match dep with
  | .jobA o => o == j.oid
  | _ => false

/-- `Job.add_singleton_dependency` (lines 287–296): `self._deps["singleton"] = []`. -/
def add_singleton_dependency (j : Job) : MethodResult :=
  { state := { j with _deps := depsSetEmpty j._deps "singleton" }
    prints := [], ret := .retSelf }

/-- `Job.add_dependency` (lines 233–285): warn and no-op on a
self-dependency; delegate `"singleton"`; normalize `None` to `""`; coerce
int time and dep to strings; discard the time when a non-empty `after`
qualifier and a truthy time are both given; append the `(dep, time)` tuple
under the key `"after" + after.lower()`. -/
def add_dependency (j : Job) (after : Option String) (dep : DepArg) (time : TimeArg) :
    MethodResult :=
  if depIsSelf j dep then
    { state := j
      prints := ["[WARNING] Dependency cannot be the same some job as this one."]
      ret := .retSelf }
  else if after == some "singleton" then
    add_singleton_dependency j
  else
    let a := after.getD ""
    let t := coerceTime time
    let d := coerceDep dep
    let t := if a ≠ "" && timeTruthy t then Option.none else t
    { state := { j with _deps := depsAppend j._deps ("after" ++ pyLower a) (.tup d t) }
      prints := [], ret := .retSelf }

/-- `Job.add_commands` (lines 298–330): extends `self.commands`; the body
has no `return` statement, so the call returns `None`. -/
def add_commands (j : Job) (commands : List String) : MethodResult :=
  { state := { j with commands := j.commands ++ commands }
    prints := [], ret := .retNone }

/-- The `dep_sep` property setter (lines 114–119): reject anything other
than `","` or `"?"` with a printed message, keeping the stored value
(the rejecting branch executes `return self`, the accepting one falls
through returning `None`). -/
def dep_sep_set (j : Job) (sep : String) : MethodResult :=
  if ¬ (sep = "," ∨ sep = "?") then
    { state := j
      prints := ["Only ',' , '?' dependency seperators may be used!"]
      ret := .retSelf }
  else
    { state := { j with _dep_sep := sep }, prints := [], ret := .retNone }

/-- `Job.set_dependency_sep` (lines 121–135): assigns through the setter
and returns `self`. -/
def set_dependency_sep (j : Job) (sep : String) : MethodResult :=
  let r := dep_sep_set j sep
  { state := r.state, prints := r.prints, ret := .retSelf }

/-- The f-string rendering of `job.job_id` inside `_dep_list_str`: an
unsubmitted dependency's `None` renders as the text `"None"`. -/
def pyOptIdStr : Option Nat → String
  | Option.none => "None"
  | some i => toString i

/-- Rendering one dependency target inside `_dep_list_str`
(`job.job_id if isinstance(job, Job) else job`). -/
def DepTarget.render (heap : Nat → Option Nat) : DepTarget → String
  | .jobRef oid => pyOptIdStr (heap oid)
  | .lit s => s

/-- Rendering one stored `(job, time)` pair inside `_dep_list_str`: the
resolved target, then `+time` only when the time is truthy.  A bare
`jobObj` element never occurs in an API-built state (every append stores a
tuple); Python would fail unpacking it, rendered here as `""`. -/
def renderEntry (heap : Nat → Option Nat) : DepListElem → String
  | .tup target time =>
      DepTarget.render heap target ++ (if timeTruthy time then "+" ++ time.getD "" else "")
  | .jobObj _ => ""

/-- `Job._dep_list_str` (lines 477–495): each class in insertion order,
`"singleton"` as the bare token, an `after*` class as
`class:target1[+t1]:target2[+t2]...`, classes joined by `_dep_sep`. -/
def _dep_list_str (heap : Nat → Option Nat) (j : Job) : String :=
  pyJoin j._dep_sep (j._deps.map (fun kv =>
    if kv.1 == "singleton" then "singleton"
    else kv.1 ++ ":" ++ pyJoin ":" (kv.2.map (renderEntry heap))))

/-- `Job._dep_str` (lines 497–502): empty when no dependency class is
recorded, else `-d` and the rendered list. -/
def _dep_str (heap : Nat → Option Nat) (j : Job) : String :=
  if j._deps.length == 0 then ""
  else "-d " ++ _dep_list_str heap j

/-- `Job._sbatch_directives` (lines 465–472): one `#SBATCH` line per
option, newline-joined. -/
def _sbatch_directives (j : Job) : String :=
  pyJoin "\n" (j._args.map (fun kv => "#SBATCH " ++ _arg_to_str kv.1 kv.2))

/-- `Job._commands_str` (lines 474–475). -/
def _commands_str (j : Job) : String :=
  pyJoin "\n" j.commands

/-- `Job.get_script_body` (lines 332–366): the shebang line, then the
directive block after a blank line when it is non-empty, then the command
block after a blank line when `commands` is non-empty. -/
def get_script_body (j : Job) : String :=
  let body := "#!" ++ j.shebang
  let directives := _sbatch_directives j
  let body := if directives ≠ "" then body ++ ("\n\n" ++ directives) else body
  let body := if j.commands ≠ [] then body ++ ("\n\n" ++ _commands_str j) else body
  body

/-- `Job.get_full_command` (lines 368–408): the dependency segment gains a
trailing space when non-empty; the command is the `sbatch --parsable`
head with the heredoc opener, the script body, and the final line `'EOF'`,
newline-joined. -/
def get_full_command (heap : Nat → Option Nat) (j : Job) : String :=
  let dep_str := _dep_str heap j
  let dep_str := if dep_str ≠ "" then dep_str ++ " " else dep_str
  pyJoin "\n" ["sbatch --parsable " ++ dep_str ++ "<<'EOF'", get_script_body j, "'EOF'"]

/-- The dependency walk at the head of `Job.submit` (lines 420–423): the
object ids of the dependencies on which `submit()` is recursively invoked.
The loop variable `dep` ranges over the elements of each stored dependency
list — the `(target, time)` tuples — and each element is recursed into
only when `isinstance(dep, Job)` holds and its `_job_id is None`. -/
def submit_recursive_targets (heap : Nat → Option Nat) (j : Job) : List Nat :=
  j._deps.flatMap (fun kv => kv.2.filterMap (fun dep =>
    if dep.isinstanceJob then
      match dep with
      | .jobObj oid => if heap oid = Option.none then some oid else Option.none
      | .tup _ _ => Option.none
    else Option.none))

/-! ## Spec-mirror definitions and helper lemmas -/

/-- Modelled from the spec's wording of the script-body format: shebang
line, the directive block after a blank line only when options exist, the
command block after a blank line only when commands exist. -/
def specScriptBody (j : Job) : String :=
  "#!" ++ j.shebang
    ++ (if j._args = [] then "" else "\n\n" ++ _sbatch_directives j)
    ++ (if j.commands = [] then "" else "\n\n" ++ _commands_str j)

/-- A string with a non-empty left part is non-empty. -/
theorem string_append_ne_empty (a b : String) (h : a ≠ "") : a ++ b ≠ "" := by
  intro hab
  apply h
  have hd : a.data ++ b.data = ([] : List Char) := by
    have h2 := congrArg String.data hab
    simpa [String.data_append] using h2
  exact String.ext (List.append_eq_nil.mp hd).1

/-- The directive block is non-empty as soon as one option is recorded
(every line carries the `#SBATCH` keyword). -/
theorem sbatch_directives_ne_empty (j : Job) (h : j._args ≠ []) :
    _sbatch_directives j ≠ "" := by
  unfold _sbatch_directives
  cases hargs : j._args with
  | nil => exact absurd hargs h
  | cons kv l =>
    cases l with
    | nil => exact string_append_ne_empty _ _ (by decide)
    | cons r rs =>
      simp only [List.map_cons, pyJoin]
      exact string_append_ne_empty _ _
        (string_append_ne_empty _ _ (string_append_ne_empty _ _ (by decide)))

/-- The directive block is empty exactly when no option is recorded. -/
theorem sbatch_directives_empty_iff (j : Job) :
    _sbatch_directives j = "" ↔ j._args = [] := by
  constructor
  · intro h
    by_contra hne
    exact sbatch_directives_ne_empty j hne h
  · intro h
    unfold _sbatch_directives
    rw [h]
    rfl

/-! ## Claims -/

/-- C6: every caller-supplied option key is normalized by stripping leading
underscores, then `--name` with internal underscores turned into hyphens
when more than one character remains, `-c` for a single character, and the
empty string for an empty remainder; rendering joins a two-character key
to a present value with a space, any other key with `=`, and an empty
value leaves the bare key. -/
theorem C6_key_normalization_and_rendering :
    (∀ arg : String,
      _parse_argname arg =
        if (arg.dropWhile (· == '_')).length > 1 then
          "--" ++ (arg.dropWhile (· == '_')).replace "_" "-"
        else if (arg.dropWhile (· == '_')).length = 1 then
          "-" ++ arg.dropWhile (· == '_')
        else "")
    ∧ (∀ argname argvalue : String,
      _arg_to_str argname argvalue =
        if argvalue = "" then argname
        else if argname.length = 2 then argname ++ " " ++ argvalue
        else argname ++ "=" ++ argvalue) := by
  constructor
  · intro arg
    unfold _parse_argname
    by_cases h1 : (arg.dropWhile (· == '_')).length > 1
    · simp [h1]
    · by_cases h2 : (arg.dropWhile (· == '_')).length = 1
      · simp [h1, h2]
      · simp [h1, h2]
  · intro argname argvalue
    unfold _arg_to_str
    by_cases hv : argvalue = ""
    · simp [hv]
    · by_cases hk : argname.length = 2
      · simp [hv, hk]
      · simp [hv, hk]

/-- C7: the rendered script body is the shebang line, then the directive
block after a blank line exactly when options exist, then the command
block after a blank line exactly when commands exist, with no separator
next to an empty section. -/
theorem C7_script_body_layout (j : Job) : get_script_body j = specScriptBody j := by
  unfold get_script_body specScriptBody
  by_cases ha : j._args = []
  · have hd : _sbatch_directives j = "" := (sbatch_directives_empty_iff j).mpr ha
    by_cases hc : j.commands = [] <;> simp [hd, ha, hc]
  · have hd : _sbatch_directives j ≠ "" := sbatch_directives_ne_empty j ha
    by_cases hc : j.commands = [] <;> simp [hd, ha, hc]

/-- C8: adding a dependency whose target is the receiver itself is a
non-fatal no-op: the state is unchanged, a warning line is printed, and
the call still returns `self`. -/
theorem C8_self_dependency_noop (j : Job) (after : Option String) (time : TimeArg) :
    add_dependency j after (DepArg.jobA j.oid) time
      = { state := j
          prints := ["[WARNING] Dependency cannot be the same some job as this one."]
          ret := PyRet.retSelf } := by
  simp [add_dependency, depIsSelf]

/-- C9: assigning a dependency separator other than `","` or `"?"` keeps
the previous value and prints a diagnostic instead of raising; a valid
separator is stored; `set_dependency_sep` still returns `self`. -/
theorem C9_dep_sep_validation (j : Job) (sep : String) :
    ((set_dependency_sep j sep).state
        = if sep = "," ∨ sep = "?" then { j with _dep_sep := sep } else j)
    ∧ (set_dependency_sep j sep).ret = PyRet.retSelf
    ∧ ((set_dependency_sep j sep).prints = [] ↔ (sep = "," ∨ sep = "?"))
    ∧ ((dep_sep_set j sep).state
        = if sep = "," ∨ sep = "?" then { j with _dep_sep := sep } else j) := by
  by_cases h : sep = "," ∨ sep = "?" <;>
    simp [set_dependency_sep, dep_sep_set, h]

/-- C10: a string option value is stored verbatim (never comma-joined
character by character), `None` becomes the empty stored value, and only a
non-string sequence is comma-joined element-wise. -/
theorem C10_string_values_verbatim :
    (∀ s, _parse_argvalues (ArgValue.str s) = s)
    ∧ _parse_argvalues ArgValue.none = ""
    ∧ (∀ xs, _parse_argvalues (ArgValue.seq xs) = pyJoin "," (xs.map Scalar.pyStr))
    ∧ _parse_argvalues (ArgValue.str "ab") ≠ "a,b" := by
  refine ⟨fun s => rfl, rfl, fun xs => rfl, by decide⟩

/-- C5 (corrected form is settled in the results): the return value of
each builder operation.  `add_commands` falls through without a `return`
statement and so returns `None`, while the other builder operations
return `self`. -/
theorem C5_builder_returns (j : Job) (kwargs : List (String × ArgValue))
    (keys : List String) (account : String) (after : Option String) (dep : DepArg)
    (time : TimeArg) (commands : List String) (sep : String) :
    (add_commands j commands).ret = PyRet.retNone
    ∧ (add_arguments j kwargs).ret = PyRet.retSelf
    ∧ (remove_arguments j keys).ret = PyRet.retSelf
    ∧ (add_account j account).ret = PyRet.retSelf
    ∧ (add_dependency j after dep time).ret = PyRet.retSelf
    ∧ (add_singleton_dependency j).ret = PyRet.retSelf
    ∧ (set_dependency_sep j sep).ret = PyRet.retSelf := by
  refine ⟨rfl, rfl, rfl, ?_, ?_, rfl, rfl⟩
  · unfold add_account
    split
    · rfl
    · split
      · rfl
      · rfl
  · unfold add_dependency
    split
    · rfl
    · split
      · rfl
      · rfl

/-- C1: the dependency walk at the head of `submit` iterates over the
stored `(target, time)` tuples, so its `isinstance(dep, Job)` test never
fires: a dependent job's unsubmitted `Job` dependency is not submitted
first, and the rendered submission command embeds the text `None` instead
of a numeric id. -/
theorem C1_submit_never_recurses :
    submit_recursive_targets (fun _ => Option.none)
      (add_dependency (mkJob 2 "B" "/bin/bash -l" [] []) (some "")
        (DepArg.jobA 1) TimeArg.noneT).state = []
    ∧ get_full_command (fun _ => Option.none)
      (add_dependency (mkJob 2 "B" "/bin/bash -l" [] []) (some "")
        (DepArg.jobA 1) TimeArg.noneT).state
      = "sbatch --parsable -d after:None <<'EOF'\n#!/bin/bash -l\n'EOF'" := by
  constructor
  · rfl
  · rfl

/-- C4: the full submission command of an option-, command- and
dependency-free job, as the code renders it: the terminating heredoc line
is the quoted text `'EOF'`, not the bare delimiter `EOF` that the claim
(and the repository's own test suite) require. -/
theorem C4_heredoc_terminator_quoted :
    get_full_command (fun _ => Option.none) (mkJob 0 "" "/bin/bash -l" [] [])
      = "sbatch --parsable <<'EOF'\n#!/bin/bash -l\n'EOF'"
    ∧ get_full_command (fun _ => Option.none) (mkJob 0 "" "/bin/bash -l" [] [])
      ≠ "sbatch --parsable <<'EOF'\n#!/bin/bash -l\nEOF" := by
  constructor
  · rfl
  · decide

/-- C2, as stated, is false: after `add_dependency("any", jobA, 10)` the
pair stored under `"afterany"` is `(jobA, None)` — the time `10` is
discarded, not retained. -/
theorem C2_counterexample_time_not_retained :
    (add_dependency (mkJob 2 "B" "/bin/bash -l" [] []) (some "any")
        (DepArg.jobA 1) (TimeArg.intT 10)).state._deps
      = [("afterany", [DepListElem.tup (DepTarget.jobRef 1) Option.none])]
    ∧ ¬ ((add_dependency (mkJob 2 "B" "/bin/bash -l" [] []) (some "any")
        (DepArg.jobA 1) (TimeArg.intT 10)).state._deps
      = [("afterany", [DepListElem.tup (DepTarget.jobRef 1) (some "10")])]) := by
  constructor
  · rfl
  · decide

/-- C2 (amended): after `add_dependency("any", jobA, 10)` on a distinct
target, the pair appended under class `"afterany"` is `(jobA, None)`:
the time `10` is discarded because the non-empty qualifier `"any"` is
present, and the rendered entry for that pair is the bare resolved target
with no `+time` suffix. -/
theorem C2_amended_any_discards_time (j : Job) (oidA : Nat) (h : oidA ≠ j.oid)
    (heap : Nat → Option Nat) :
    (add_dependency j (some "any") (DepArg.jobA oidA) (TimeArg.intT 10)).state._deps
      = depsAppend j._deps "afterany"
          (DepListElem.tup (DepTarget.jobRef oidA) Option.none)
    ∧ renderEntry heap (DepListElem.tup (DepTarget.jobRef oidA) Option.none)
      = pyOptIdStr (heap oidA) := by
  have hds : depIsSelf j (DepArg.jobA oidA) = false := by
    simp [depIsSelf, h]
  constructor
  · unfold add_dependency
    rw [hds]
    rfl
  · simp [renderEntry, timeTruthy, DepTarget.render]

/-- Witness for C2's amended theorem at a concrete input. -/
theorem C2_amended_witness :
    (1 : Nat) ≠ (mkJob 0 "" "/bin/bash -l" [] []).oid
    ∧ ((add_dependency (mkJob 0 "" "/bin/bash -l" [] []) (some "any")
          (DepArg.jobA 1) (TimeArg.intT 10)).state._deps
        = depsAppend (mkJob 0 "" "/bin/bash -l" [] [])._deps "afterany"
            (DepListElem.tup (DepTarget.jobRef 1) Option.none)
      ∧ renderEntry (fun _ => Option.none)
          (DepListElem.tup (DepTarget.jobRef 1) Option.none)
        = pyOptIdStr ((fun _ => Option.none) 1)) :=
  ⟨by decide,
    C2_amended_any_discards_time (mkJob 0 "" "/bin/bash -l" [] []) 1 (by decide)
      (fun _ => Option.none)⟩

/-- C3: a non-empty `after` qualifier other than `"singleton"` combined
with a truthy time discards the time: the appended pair carries no time,
and its rendered dependency expression carries no `+time` suffix. -/
theorem C3_qualified_after_discards_time (j : Job) (after : String) (dep : DepArg)
    (time : TimeArg) (heap : Nat → Option Nat)
    (h1 : after ≠ "") (h2 : after ≠ "singleton")
    (h3 : timeTruthy (coerceTime time) = true)
    (h4 : dep ≠ DepArg.jobA j.oid) :
    (add_dependency j (some after) dep time).state._deps
      = depsAppend j._deps ("after" ++ pyLower after)
          (DepListElem.tup (coerceDep dep) Option.none)
    ∧ renderEntry heap (DepListElem.tup (coerceDep dep) Option.none)
      = DepTarget.render heap (coerceDep dep) := by
  have hds : depIsSelf j dep = false := by
    cases dep with
    | jobA o =>
      simp only [depIsSelf, beq_eq_false_iff_ne, ne_eq]
      intro he
      exact h4 (by rw [he])
    | intA n => rfl
    | strA s => rfl
  have hsing : ((some after == some "singleton") : Bool) = false := by
    simp [h2]
  constructor
  · unfold add_dependency
    rw [hds, hsing]
    simp [Option.getD, h1, h3]
  · simp [renderEntry, timeTruthy]

/-- Witness for C3's theorem at a concrete input. -/
theorem C3_witness :
    ("notok" : String) ≠ ""
    ∧ ("notok" : String) ≠ "singleton"
    ∧ timeTruthy (coerceTime (TimeArg.intT 5)) = true
    ∧ DepArg.intA 7 ≠ DepArg.jobA (mkJob 0 "" "/bin/bash -l" [] []).oid
    ∧ ((add_dependency (mkJob 0 "" "/bin/bash -l" [] []) (some "notok")
          (DepArg.intA 7) (TimeArg.intT 5)).state._deps
        = depsAppend (mkJob 0 "" "/bin/bash -l" [] [])._deps ("after" ++ pyLower "notok")
            (DepListElem.tup (coerceDep (DepArg.intA 7)) Option.none)
      ∧ renderEntry (fun _ => Option.none)
          (DepListElem.tup (coerceDep (DepArg.intA 7)) Option.none)
        = DepTarget.render (fun _ => Option.none) (coerceDep (DepArg.intA 7))) :=
  ⟨by decide, by decide, by decide, by decide,
    C3_qualified_after_discards_time (mkJob 0 "" "/bin/bash -l" [] []) "notok"
      (DepArg.intA 7) (TimeArg.intT 5) (fun _ => Option.none)
      (by decide) (by decide) (by decide) (by decide)⟩
